import Mathlib

/-!
# Shallow embedding of the MediConnect booking backend (`src/app.py`)

This file embeds the Flask/PyMongo appointment-booking backend as pure Lean
functions and proves properties of its registration, doctor-listing and
appointment-booking handlers.

Modelling conventions:
* Instants (`datetime` values) are integer minutes on the UTC timeline (`Int`);
  `timedelta(minutes=d)` is addition by `d`.  Only order and addition of
  instants matter to the handlers.
* Mongo `ObjectId`s are `Nat`; fresh ids are generated from collection sizes.
* The document store is an explicit record of lists (`DB`); `insert_one` is
  list append; `find_one` is `List.find?`.
* JSON request bodies are records.  For required string fields the empty
  string models both an absent key and a present-but-falsy value, matching
  the handler's `if field not in data or not data[field]` test.
  Outcomes of external library parsers (`bson.ObjectId`, ISO-8601 `datetime`
  parsing, `float`/`int` coercion) are carried as `Option` fields of the
  request, since those parsers are external collaborators of the core.
* Monetary amounts and ratings are `ℚ` (the literals 150.0 and 5.0 are exact).
* `werkzeug`'s password hashing is an external collaborator; it is modelled
  as an injective tagging function.
-/

namespace MediConnect

/-! ## Utility functions (`validate_email`, `validate_password`) -/

/-- Character class `[a-zA-Z0-9._%+-]` of the email regex's local part. -/
def isLocalChar (c : Char) : Bool :=
  ('a' ≤ c && c ≤ 'z') || ('A' ≤ c && c ≤ 'Z') || ('0' ≤ c && c ≤ '9') ||
  c == '.' || c == '_' || c == '%' || c == '+' || c == '-'

/-- Character class `[a-zA-Z0-9.-]` of the email regex's domain part. -/
def isDomainChar (c : Char) : Bool :=
  ('a' ≤ c && c ≤ 'z') || ('A' ≤ c && c ≤ 'Z') || ('0' ≤ c && c ≤ '9') ||
  c == '.' || c == '-'

/-- Character class `[a-zA-Z]`. -/
def isAsciiAlpha (c : Char) : Bool :=
  ('a' ≤ c && c ≤ 'z') || ('A' ≤ c && c ≤ 'Z')

/-- Matcher for the tail `[a-zA-Z0-9.-]+\.[a-zA-Z]\x7b2,\x7d` of the email
regex (the part after `@`).  The boolean argument records whether at least one
domain character has been consumed; the recursion tries every position for the
literal dot, which is exactly the backtracking semantics of the regex. -/
def emailDomainMatch : Bool → List Char → Bool
  | _, [] => false
  | preNE, c :: cs =>
      (c == '.' && preNE && decide (2 ≤ cs.length) && cs.all isAsciiAlpha)
      || (isDomainChar c && emailDomainMatch true cs)

/-- Matcher for `^[a-zA-Z0-9._%+-]+@` followed by `emailDomainMatch`.  The
local character class does not contain `@`, so the split at the first `@` is
forced and no backtracking arises. -/
def emailMatch : Bool → List Char → Bool
  | _, [] => false
  | localNE, c :: cs =>
      if c == '@' then localNE && emailDomainMatch false cs
      else isLocalChar c && emailMatch true cs

/-- `validate_email` (src/app.py:38-40):
`re.match(r'^[a-zA-Z0-9._%+-]+@[a-zA-Z0-9.-]+\.[a-zA-Z]\x7b2,\x7d$', email)`.
Python's `$` also matches just before one trailing newline, hence the
`dropLast` normalisation. -/
def validate_email (email : String) : Bool :=
  let cs := email.data
  let cs := if cs.getLast? == some '\n' then cs.dropLast else cs
  emailMatch false cs

/-- The symbol class `[@$!%*?&]` of the password policy. -/
def isPasswordSymbol (c : Char) : Bool :=
  (['@', '$', '!', '%', '*', '?', '&'] : List Char).contains c

/-- `validate_password` (src/app.py:42-53).  `\d` is modelled as the ASCII
digits, and `len` as the code-point count. -/
def validate_password (password : String) : Bool :=
  if password.length < 8 then false
  else if !(password.data.any fun c => 'A' ≤ c && c ≤ 'Z') then false
  else if !(password.data.any fun c => 'a' ≤ c && c ≤ 'z') then false
  else if !(password.data.any Char.isDigit) then false
  else if !(password.data.any isPasswordSymbol) then false
  else true

/-- `werkzeug.security.generate_password_hash`, an external collaborator;
modelled as injective tagging. -/
def generate_password_hash (password : String) : String :=
  "pbkdf2-sha256$" ++ password

/-- Python's `str.lower()` (ASCII-faithful), written character-wise so that it
evaluates inside the kernel. -/
def strToLower (s : String) : String :=
  ⟨s.data.map Char.toLower⟩

/-! ## Data model (the four Mongo collections) -/

/-- A document of the `users` collection. -/
structure User where
  id : Nat
  email : String
  password_hash : String
  role : String
  first_name : String
  last_name : String
  phone : Option String
  is_verified : Bool
  is_active : Bool
  created_at : Int
  updated_at : Int
deriving Repr, DecidableEq

/-- A document of the `doctor_profiles` collection. -/
structure DoctorProfile where
  user_id : Nat
  medical_license : String
  specialty : String
  consultation_fee : ℚ
  rating : ℚ
  years_experience : Int
deriving Repr, DecidableEq

/-- A document of the `patient_profiles` collection. -/
structure PatientProfile where
  user_id : Nat
  date_of_birth : Option String
  medical_history : String
deriving Repr, DecidableEq

/-- A document of the `appointments` collection. -/
structure Appointment where
  id : Nat
  patient_id : Nat
  doctor_id : Nat
  appointment_date : Int
  end_time : Int
  duration : Int
  consultation_type : String
  status : String
  consultation_fee : ℚ
  meeting_link : String
  symptoms : String
  patient_notes : String
  created_at : Int
  updated_at : Int
deriving Repr, DecidableEq

/-- The document store. -/
structure DB where
  users : List User
  doctor_profiles : List DoctorProfile
  patient_profiles : List PatientProfile
  appointments : List Appointment
deriving Repr, DecidableEq

/-- The empty store. -/
def DB.empty : DB := ⟨[], [], [], []⟩

/-! ## Registration (`register`, src/app.py:76-168) -/

/-- The JSON body of `POST /api/auth/register`.  Required string fields use
`""` for absent-or-falsy.  `consultation_fee`/`years_experience` carry the
outcome of Python's `float(...)`/`int(...)` coercion: `none` = key absent
(the default is used), `some none` = key present but the coercion raises,
`some (some v)` = key present and coercing to `v`.  The body may carry a
`rating` key; the handler never reads it. -/
structure RegisterRequest where
  email : String
  password : String
  user_type : String
  first_name : String
  last_name : String
  phone : Option String := none
  medical_license : Option String := none
  specialty : Option String := none
  consultation_fee : Option (Option ℚ) := none
  years_experience : Option (Option Int) := none
  rating : Option ℚ := none
  date_of_birth : Option String := none
  medical_history : Option String := none
deriving Repr, DecidableEq

/-- Responses of the register handler: HTTP 201 with
`{user_id, email, user_type}` (the echoed email is the raw request value,
src/app.py:159), or an error envelope. -/
inductive RegisterResponse where
  | created (user_id : Nat) (email : String) (user_type : String)
  | error (code : Nat) (message : String)
deriving Repr, DecidableEq

/-- `register` (src/app.py:76-168).  Returns the response and the store after
the handler ran.  Notes kept from the source:
* the duplicate-email lookup (line 105) queries the *raw* request email while
  the stored document holds the lowercased one (line 120);
* `float(data.get('consultation_fee', 150.0))` and
  `int(data.get('years_experience', 0))` run *after* `users.insert_one`
  (lines 133-143); if the coercion raises, the `except` arm answers 500 with
  the user document already inserted.  The 500 message interpolates `str(e)`;
  it is abbreviated here. -/
def register (now : Int) (db : DB) (data : RegisterRequest) :
    RegisterResponse × DB :=
  if data.email = "" then
    (.error 400 "Missing required field: email", db)
  else if data.password = "" then
    (.error 400 "Missing required field: password", db)
  else if data.user_type = "" then
    (.error 400 "Missing required field: user_type", db)
  else if data.first_name = "" then
    (.error 400 "Missing required field: first_name", db)
  else if data.last_name = "" then
    (.error 400 "Missing required field: last_name", db)
  else if !(validate_email data.email) then
    (.error 400 "Invalid email format", db)
  else if !(validate_password data.password) then
    (.error 400
      "Password must be at least 8 characters with uppercase, lowercase, number, and special character",
      db)
  else if db.users.any (fun u => u.email == data.email) then
    (.error 409 "Email already registered", db)
  else if !(data.user_type == "patient" || data.user_type == "doctor") then
    (.error 400 "Invalid user type. Must be patient or doctor", db)
  else
    let uid := db.users.length
    let user : User :=
      { id := uid
        email := strToLower data.email
        password_hash := generate_password_hash data.password
        role := data.user_type
        first_name := data.first_name
        last_name := data.last_name
        phone := data.phone
        is_verified := true
        is_active := true
        created_at := now
        updated_at := now }
    let db1 : DB := { db with users := db.users ++ [user] }
    if data.user_type == "doctor" then
      match (match data.consultation_fee with
             | none => some (150 : ℚ)
             | some o => o) with
      | none => (.error 500 "Registration failed: float()", db1)
      | some fee =>
        match (match data.years_experience with
               | none => some (0 : Int)
               | some o => o) with
        | none => (.error 500 "Registration failed: int()", db1)
        | some years =>
          let profile : DoctorProfile :=
            { user_id := uid
              medical_license := data.medical_license.getD ""
              specialty := data.specialty.getD ""
              consultation_fee := fee
              rating := 5
              years_experience := years }
          (.created uid data.email data.user_type,
           { db1 with doctor_profiles := db1.doctor_profiles ++ [profile] })
    else
      let profile : PatientProfile :=
        { user_id := uid
          date_of_birth := data.date_of_birth
          medical_history := data.medical_history.getD "" }
      (.created uid data.email data.user_type,
       { db1 with patient_profiles := db1.patient_profiles ++ [profile] })

/-! ## Doctor directory (`get_available_doctors`, src/app.py:224-328) -/

/-- `listHasPre hay pat`: `hay` starts with `pat` (character lists). -/
def listHasPre : List Char → List Char → Bool
  | _, [] => true
  | [], _ :: _ => false
  | a :: as, b :: bs => a == b && listHasPre as bs

/-- `listHasSub hay pat`: `pat` occurs contiguously inside `hay`. -/
def listHasSub : List Char → List Char → Bool
  | [], pat => pat.isEmpty
  | a :: as, pat => listHasPre (a :: as) pat || listHasSub as pat

/-- The `$regex … $options i` specialty filter: case-insensitive substring
containment (regex metacharacters in the query string are not modelled). -/
def regexContains (hay pat : String) : Bool :=
  listHasSub (strToLower hay).data (strToLower pat).data

/-- The projected summary row of the aggregation pipeline
(src/app.py:278-288). -/
structure DoctorSummary where
  id : Nat
  name : String
  specialty : String
  rating : ℚ
  consultation_fee : ℚ
  years_experience : Int
  next_available : Int
deriving Repr, DecidableEq

/-- The aggregation pipeline before `$skip`/`$limit` (src/app.py:242-288):
match active doctors, `$lookup` + `$unwind` their profiles (one row per
matching profile; users without a profile are dropped), optional
case-insensitive specialty filter, the placeholder location filter
(`first_name: \x7b$exists: True\x7d`, satisfied by every user document here),
and the summary `$project`. -/
def doctorPipeline (now : Int) (db : DB) (specialty location : Option String) :
    List DoctorSummary :=
  let rows :=
    (db.users.filter fun u => u.role == "doctor" && u.is_active).flatMap
      fun u =>
        (db.doctor_profiles.filter fun p => p.user_id == u.id).map
          fun p => (u, p)
  let rows :=
    match specialty with
    | none => rows
    | some s => rows.filter fun up => regexContains up.2.specialty s
  let rows :=
    match location with
    | none => rows
    | some _ => rows.filter fun _ => true
  rows.map fun up =>
    { id := up.1.id
      name := up.1.first_name ++ " " ++ up.1.last_name
      specialty := up.2.specialty
      rating := up.2.rating
      consultation_fee := up.2.consultation_fee
      years_experience := up.2.years_experience
      next_available := now }

/-- Responses of the doctor-listing handler: HTTP 200 with
`{doctors, pagination}` or an error envelope. -/
inductive DoctorsResponse where
  | ok (doctors : List DoctorSummary) (current_page : Int) (total_pages : Nat)
      (total_doctors : Nat) (has_next : Bool)
  | error (code : Nat) (message : String)
deriving Repr, DecidableEq

/-- `get_available_doctors` (src/app.py:224-328).  `page` and `limit` arrive
as arbitrary Python ints; once the guard `page < 1 or limit < 1 or limit > 50`
has passed both are positive, so the skip/total-pages arithmetic — Python's
`(page - 1) * limit` and `(total + limit - 1) // limit` on non-negative
ints — is carried out in `Nat`. -/
def get_available_doctors (now : Int) (db : DB)
    (specialty location : Option String) (page limit : Int) :
    DoctorsResponse :=
  if page < 1 || limit < 1 || limit > 50 then
    .error 400 "Invalid pagination parameters"
  else
    let rows := doctorPipeline now db specialty location
    let skip : Nat := (page - 1).toNat * limit.toNat
    let doctors := (rows.drop skip).take limit.toNat
    let total : Nat := rows.length
    let total_pages : Nat := (total + limit.toNat - 1) / limit.toNat
    .ok doctors page total_pages total (decide (page < (total_pages : Int)))

/-! ## Booking (`book_appointment`, src/app.py:331-481) -/

/-- The JSON body of `POST /api/appointments` plus the outcomes of the two
external parsers the handler applies to it: `doctor_id_oid` is the outcome of
`ObjectId(data['doctor_id'])` (`none` = raises), `appointment_date_parsed`
the outcome of the ISO-8601 parse and UTC normalisation of
`data['appointment_date']` (src/app.py:369-374; `none` = raises).  For the
required-field test, `""` models absent-or-falsy strings and
`duration = none` an absent key; note `some 0` is falsy in Python. -/
structure BookRequest where
  doctor_id : String
  doctor_id_oid : Option Nat := none
  appointment_date : String
  appointment_date_parsed : Option Int := none
  duration : Option Int := none
  consultation_type : String
  symptoms : Option String := none
  notes : Option String := none
deriving Repr, DecidableEq

/-- Responses of the booking handler: HTTP 201 with the confirmation
payload (assembled from the inserted document) or an error envelope. -/
inductive BookResponse where
  | created (appointment : Appointment)
  | error (code : Nat) (message : String)
deriving Repr, DecidableEq

/-- The conflict filter of `mongo.db.appointments.find_one` at
src/app.py:404-421, for a proposed slot `[pStart, pEnd)` of doctor `did`.
The third `$or` clause is written in the source as a Python dict literal that
binds the key `'appointment_date'` twice (`$gte: appointment_date` then
`$lt: end_time`); a later duplicate key silently replaces the earlier one, so
the clause that reaches Mongo is only `appointment_date < pEnd`. -/
def appointmentConflictFilter (did : Nat) (pStart pEnd : Int)
    (a : Appointment) : Bool :=
  a.doctor_id == did &&
  !(a.status == "cancelled" || a.status == "no_show") &&
  ((a.appointment_date ≤ pStart && a.end_time > pStart) ||
   (a.appointment_date < pEnd && a.end_time ≥ pEnd) ||
   (a.appointment_date < pEnd))

/-- `book_appointment` (src/app.py:331-481), the body inside the
`role_required('patient')` gate; `user_id` is the authenticated patient's id
and `now` the value of `datetime.utcnow()`.  Returns the response and the
store after the handler ran. -/
def book_appointment (now : Int) (db : DB) (user_id : Nat)
    (data : BookRequest) : BookResponse × DB :=
  if data.doctor_id = "" then
    (.error 400 "Missing required field: doctor_id", db)
  else if data.appointment_date = "" then
    (.error 400 "Missing required field: appointment_date", db)
  else if data.duration = none ∨ data.duration = some 0 then
    (.error 400 "Missing required field: duration", db)
  else if data.consultation_type = "" then
    (.error 400 "Missing required field: consultation_type", db)
  else
    match data.doctor_id_oid with
    | none => (.error 400 "Invalid doctor ID format", db)
    | some doctor_id =>
      match db.users.find? fun u =>
          u.id == doctor_id && u.role == "doctor" && u.is_active with
      | none => (.error 404 "Doctor not found or inactive", db)
      | some _doctor =>
        match data.appointment_date_parsed with
        | none =>
          (.error 400
            "Invalid appointment date format. Use ISO 8601 (e.g., 2025-07-25T14:00:00Z)",
            db)
        | some appointment_date =>
          if appointment_date ≤ now then
            (.error 400 "Appointment must be scheduled for future date", db)
          else
            let dur := (data.duration.getD 0)
            if !((([15, 30, 45, 60] : List Int)).contains dur) then
              (.error 400 "Invalid duration. Must be 15, 30, 45, or 60 minutes", db)
            else if !((["video", "audio", "chat"] : List String).contains
                data.consultation_type) then
              (.error 400 "Invalid consultation type", db)
            else
              let end_time := appointment_date + dur
              match db.appointments.find?
                  (appointmentConflictFilter doctor_id appointment_date end_time) with
              | some _ => (.error 409 "Time slot no longer available", db)
              | none =>
                let fee : ℚ :=
                  match db.doctor_profiles.find? fun p => p.user_id == doctor_id with
                  | none => 150
                  | some p => p.consultation_fee
                let appt : Appointment :=
                  { id := db.appointments.length
                    patient_id := user_id
                    doctor_id := doctor_id
                    appointment_date := appointment_date
                    end_time := end_time
                    duration := dur
                    consultation_type := data.consultation_type
                    status := "confirmed"
                    consultation_fee := fee
                    meeting_link :=
                      "https://meet.mediconnect.com/room/" ++
                        toString db.appointments.length
                    symptoms := data.symptoms.getD ""
                    patient_notes := data.notes.getD ""
                    created_at := now
                    updated_at := now }
                (.created appt, { db with appointments := db.appointments ++ [appt] })

/-! ## The spec's canonical overlap predicate (spec §4.3)

These next definitions follow the SPEC's words, not the source; they exist to
be compared with `appointmentConflictFilter` above. -/

/-- Spec §4.3: half-open intervals `[a1,a2)` and `[b1,b2)` overlap iff
`a1 < b2 AND b1 < a2`. -/
def overlapSpec (a1 a2 b1 b2 : Int) : Bool :=
  a1 < b2 && b1 < a2

/-- Spec §4.3 `hasConflict`: some appointment of the doctor whose status is
not in \x7bcancelled, no_show\x7d overlaps the proposed interval. -/
def hasConflictSpec (appts : List Appointment) (did : Nat)
    (pStart pEnd : Int) : Bool :=
  appts.any fun a =>
    a.doctor_id == did &&
    !(a.status == "cancelled" || a.status == "no_show") &&
    overlapSpec a.appointment_date a.end_time pStart pEnd

/-! ## Concrete stores and requests used by the theorems -/

/-- An active doctor account (id 1). -/
def drBob : User :=
  { id := 1, email := "bob@example.com"
    password_hash := generate_password_hash "Doctor123!"
    role := "doctor", first_name := "Bob", last_name := "Jones"
    phone := none, is_verified := true, is_active := true
    created_at := 0, updated_at := 0 }

/-- A confirmed appointment of doctor 1 on `[600, 630)`
(10:00–10:30 as minutes of the day). -/
def apptTen : Appointment :=
  { id := 0, patient_id := 2, doctor_id := 1, appointment_date := 600
    end_time := 630, duration := 30, consultation_type := "video"
    status := "confirmed", consultation_fee := 150, meeting_link := "m"
    symptoms := "", patient_notes := "", created_at := 0, updated_at := 0 }

/-- Store with doctor 1 and the `[600, 630)` appointment. -/
def dbTen : DB := ⟨[drBob], [], [], [apptTen]⟩

/-- Booking request for `[630, 660)` (10:30–11:00) with doctor 1; all fields
valid, parses supplied. -/
def reqHalfPastTen : BookRequest :=
  { doctor_id := "65a000000000000000000001", doctor_id_oid := some 1
    appointment_date := "2099-01-01T10:30:00Z"
    appointment_date_parsed := some 630
    duration := some 30, consultation_type := "video" }

/-- C1 (code_bug): with an existing confirmed appointment `[600, 630)` for
doctor 1, booking the back-to-back slot `[630, 660)` is answered
`409 "Time slot no longer available"` and writes nothing, although the spec's
half-open overlap predicate reports no overlap: the third `$or` clause of the
conflict query collapses (duplicate dict key) to
`existing.start < proposed.end`. -/
theorem book_adjacent_slot_returns_conflict :
    book_appointment 0 dbTen 2 reqHalfPastTen =
      (.error 409 "Time slot no longer available", dbTen) ∧
    hasConflictSpec dbTen.appointments 1 630 660 = false ∧
    overlapSpec 600 630 630 660 = false := by
  refine ⟨?_, by decide, by decide⟩
  decide

/-- A confirmed appointment of doctor 1 on `[480, 510)` (8:00–8:30). -/
def apptEight : Appointment :=
  { apptTen with appointment_date := 480, end_time := 510 }

/-- Store with doctor 1 and the `[480, 510)` appointment. -/
def dbEight : DB := ⟨[drBob], [], [], [apptEight]⟩

/-- Booking request for `[600, 630)` (10:00–10:30) with doctor 1. -/
def reqTen : BookRequest :=
  { reqHalfPastTen with
    appointment_date := "2099-01-01T10:00:00Z"
    appointment_date_parsed := some 600 }

/-- C2 (code_bug): the booking operation answers
`409 "Time slot no longer available"` for proposed slot `[600, 630)` although
the only existing appointment of the doctor lies on `[480, 510)`, which does
not satisfy the spec's overlap predicate `a1 < b2 AND b1 < a2`: because of
the duplicated `'appointment_date'` key, any non-cancelled appointment of the
doctor starting before the proposed end is reported as a conflict. -/
theorem book_conflict_without_overlap :
    book_appointment 0 dbEight 2 reqTen =
      (.error 409 "Time slot no longer available", dbEight) ∧
    hasConflictSpec dbEight.appointments 1 600 630 = false := by
  refine ⟨?_, by decide⟩
  decide

/-- Doctor registration whose `consultation_fee` value makes Python's
`float(...)` raise (e.g. the string `"abc"`). -/
def reqBadFee : RegisterRequest :=
  { email := "doc@example.com", password := "Passw0rd!"
    user_type := "doctor", first_name := "Doc", last_name := "Who"
    consultation_fee := some none }

/-- C3 (code_bug): this failure path of registration does NOT leave the
persisted state unchanged: the handler inserts the user document first and
only then evaluates `float(data.get('consultation_fee', 150.0))`; when that
raises, the request fails with a 500 envelope while the user record stays
written (one document write on an internal failure). -/
theorem register_writes_user_then_fails :
    (register 0 DB.empty reqBadFee).1 =
      .error 500 "Registration failed: float()" ∧
    ((register 0 DB.empty reqBadFee).2.users.map User.email) =
      ["doc@example.com"] ∧
    (register 0 DB.empty reqBadFee).2.doctor_profiles = [] := by
  refine ⟨?_, ?_, ?_⟩ <;> decide

/-- A patient registration whose email contains an uppercase letter. -/
def reqAlice : RegisterRequest :=
  { email := "Alice@example.com", password := "Passw0rd!"
    user_type := "patient", first_name := "Alice", last_name := "Smith" }

/-- The store after registering `reqAlice` once. -/
def dbAfterAlice : DB := (register 0 DB.empty reqAlice).2

/-- C4 (code_bug): registering the same email a second time is not rejected:
the duplicate lookup queries the raw request email (`"Alice@example.com"`)
while the stored document holds the lowercased `"alice@example.com"`, so the
second registration succeeds (201) and a second account with the identical
normalized email is persisted — no `ConflictError` is raised. -/
theorem register_duplicate_mixed_case_email_not_rejected :
    (register 0 DB.empty reqAlice).1 =
      .created 0 "Alice@example.com" "patient" ∧
    (register 0 dbAfterAlice reqAlice).1 =
      .created 1 "Alice@example.com" "patient" ∧
    ((register 0 dbAfterAlice reqAlice).2.users.map User.email) =
      ["alice@example.com", "alice@example.com"] := by
  refine ⟨?_, ?_, ?_⟩ <;> decide

/-- Store containing only the active doctor 1 (no appointments). -/
def dbDoctorOnly : DB := ⟨[drBob], [], [], []⟩

/-- C5: the booking validation order is fixed — once the earlier checks pass
(required fields present and truthy, doctor id parses, doctor found active,
date parses) a past-or-present start time is answered with the
`"Appointment must be scheduled for future date"` validation error and no
write, whatever the `duration` and `consultation_type` fields hold (they are
unconstrained here beyond mere truthiness, so the past-start error precedes
any duration or consultation-type error). -/
theorem book_past_date_first
    (now : Int) (db : DB) (uid : Nat) (data : BookRequest)
    (hdoc : data.doctor_id ≠ "")
    (hdate : data.appointment_date ≠ "")
    (hdur : data.duration ≠ none ∧ data.duration ≠ some 0)
    (htype : data.consultation_type ≠ "")
    (hoid : ∃ did, data.doctor_id_oid = some did ∧
      (db.users.find? fun u =>
        u.id == did && u.role == "doctor" && u.is_active).isSome = true)
    (hparse : ∃ d, data.appointment_date_parsed = some d ∧ d ≤ now) :
    book_appointment now db uid data =
      (.error 400 "Appointment must be scheduled for future date", db) := by
  obtain ⟨did, hdid, hfind⟩ := hoid
  obtain ⟨doctor, hdoctor⟩ := Option.isSome_iff_exists.mp hfind
  obtain ⟨d, hd, hdle⟩ := hparse
  unfold book_appointment
  simp only [hdid, hdoctor, hd, if_neg hdoc, if_neg hdate,
    if_neg (not_or.mpr hdur), if_neg htype, if_pos hdle]

/-- Booking request whose start time lies in the past and whose `duration`
(7) and `consultation_type` (`"telepathy"`) are both invalid. -/
def reqPastInvalid : BookRequest :=
  { doctor_id := "65a000000000000000000001", doctor_id_oid := some 1
    appointment_date := "2020-01-01T08:20:00Z"
    appointment_date_parsed := some 500
    duration := some 7, consultation_type := "telepathy" }

/-- C5 witness: at `now = 1000` the request `reqPastInvalid` (start 500 in
the past, duration and consultation type both invalid) is rejected with the
past-date validation error. -/
theorem book_past_date_first_witness :
    reqPastInvalid.doctor_id ≠ "" ∧
    reqPastInvalid.appointment_date ≠ "" ∧
    (reqPastInvalid.duration ≠ none ∧ reqPastInvalid.duration ≠ some 0) ∧
    reqPastInvalid.consultation_type ≠ "" ∧
    book_appointment 1000 dbDoctorOnly 2 reqPastInvalid =
      (.error 400 "Appointment must be scheduled for future date",
        dbDoctorOnly) :=
  ⟨by decide, by decide, ⟨by decide, by decide⟩, by decide,
    book_past_date_first 1000 dbDoctorOnly 2 reqPastInvalid
      (by decide) (by decide) ⟨by decide, by decide⟩ (by decide)
      ⟨1, rfl, by decide⟩ ⟨500, rfl, by decide⟩⟩

/-- C7: once the earlier checks pass, booking fails with the
`"Appointment must be scheduled for future date"` validation error exactly
when the normalized start time is not strictly greater than the current UTC
time; in particular a start equal to `now` is rejected. -/
theorem book_future_iff
    (now : Int) (db : DB) (uid : Nat) (data : BookRequest) (d : Int)
    (hdoc : data.doctor_id ≠ "")
    (hdate : data.appointment_date ≠ "")
    (hdur : data.duration ≠ none ∧ data.duration ≠ some 0)
    (htype : data.consultation_type ≠ "")
    (hoid : ∃ did, data.doctor_id_oid = some did ∧
      (db.users.find? fun u =>
        u.id == did && u.role == "doctor" && u.is_active).isSome = true)
    (hd : data.appointment_date_parsed = some d) :
    ((book_appointment now db uid data).1 =
      .error 400 "Appointment must be scheduled for future date") ↔
      d ≤ now := by
  obtain ⟨did, hdid, hfind⟩ := hoid
  obtain ⟨doctor, hdoctor⟩ := Option.isSome_iff_exists.mp hfind
  unfold book_appointment
  simp only [hdid, hdoctor, hd, if_neg hdoc, if_neg hdate,
    if_neg (not_or.mpr hdur), if_neg htype]
  constructor
  · intro h
    by_contra hgt
    rw [if_neg hgt] at h
    revert h
    split
    · exact fun h => absurd (BookResponse.error.inj h).2 (by decide)
    · split
      · exact fun h => absurd (BookResponse.error.inj h).2 (by decide)
      · split
        · exact fun h => absurd (BookResponse.error.inj h).2 (by decide)
        · exact fun h => BookResponse.noConfusion h
  · intro hle
    rw [if_pos hle]

/-- C7 witness: a request whose normalized start equals the current time
(both 600) is rejected with the past-date validation error. -/
theorem book_future_iff_witness :
    reqTen.appointment_date_parsed = some 600 ∧
    (book_appointment 600 dbDoctorOnly 2 reqTen).1 =
      .error 400 "Appointment must be scheduled for future date" :=
  ⟨rfl,
    (book_future_iff 600 dbDoctorOnly 2 reqTen 600
      (by decide) (by decide) ⟨by decide, by decide⟩ (by decide)
      ⟨1, rfl, by decide⟩ rfl).mpr (by decide)⟩

/-- An active doctor account with id `i` (for the pagination stores). -/
def mkDoctor (i : Nat) : User :=
  { id := i, email := "d", password_hash := "h", role := "doctor"
    first_name := "F", last_name := "D", phone := none
    is_verified := true, is_active := true, created_at := 0, updated_at := 0 }

/-- A doctor profile linked to user `i`. -/
def mkProfile (i : Nat) : DoctorProfile :=
  { user_id := i, medical_license := "", specialty := "cardiology"
    consultation_fee := 150, rating := 5, years_experience := 3 }

/-- A store holding 23 active doctors with profiles. -/
def dbTwentyThree : DB :=
  ⟨(List.range 23).map mkDoctor, (List.range 23).map mkProfile, [], []⟩

/-- C6: for every valid `page ≥ 1` and `limit ∈ [1,50]` the listing succeeds
and returns exactly the rows after skipping `(page-1)*limit`, the total
count, `totalPages = ⌈totalCount / limit⌉` (ceiling division), and
`hasNext = (page < totalPages)`.  The second conjunct characterises the
reported page count as the actual ceiling: it is the least `k` with
`totalCount ≤ limit * k`. -/
theorem get_available_doctors_pagination
    (now : Int) (db : DB) (specialty location : Option String)
    (page limit : Int)
    (hp : 1 ≤ page) (hl1 : 1 ≤ limit) (hl2 : limit ≤ 50) :
    get_available_doctors now db specialty location page limit =
      .ok (((doctorPipeline now db specialty location).drop
              ((page - 1).toNat * limit.toNat)).take limit.toNat)
        page
        ((doctorPipeline now db specialty location).length ⌈/⌉ limit.toNat)
        (doctorPipeline now db specialty location).length
        (decide (page <
          (((doctorPipeline now db specialty location).length ⌈/⌉
            limit.toNat : Nat) : Int))) ∧
    ∀ k : Nat,
      ((doctorPipeline now db specialty location).length ⌈/⌉ limit.toNat ≤ k ↔
        (doctorPipeline now db specialty location).length ≤ limit.toNat * k) := by
  constructor
  · unfold get_available_doctors
    rw [if_neg (by simp only [Bool.or_eq_true, decide_eq_true_eq, not_or]; omega)]
    simp only [Nat.ceilDiv_eq_add_pred_div]
  · intro k
    have h0 : 0 < limit.toNat := by omega
    simpa [smul_eq_mul] using
      ceilDiv_le_iff_le_smul (α := ℕ) (β := ℕ) h0
        (b := (doctorPipeline now db specialty location).length) (c := k)

/-- C6 witness: with 23 doctors and `limit = 10`, `totalPages = 3`, pages
1 and 2 report `hasNext = true` and page 3 reports `hasNext = false`. -/
theorem get_available_doctors_pagination_witness :
    ((1 : Int) ≤ 3 ∧ (1 : Int) ≤ 10 ∧ (10 : Int) ≤ 50) ∧
    get_available_doctors 0 dbTwentyThree none none 1 10 =
      .ok ((doctorPipeline 0 dbTwentyThree none none).take 10) 1 3 23 true ∧
    get_available_doctors 0 dbTwentyThree none none 2 10 =
      .ok (((doctorPipeline 0 dbTwentyThree none none).drop 10).take 10)
        2 3 23 true ∧
    get_available_doctors 0 dbTwentyThree none none 3 10 =
      .ok (((doctorPipeline 0 dbTwentyThree none none).drop 20).take 10)
        3 3 23 false := by
  refine ⟨⟨by decide, by decide, by decide⟩, ?_, ?_, ?_⟩
  · rw [(get_available_doctors_pagination 0 dbTwentyThree none none 1 10
      (by decide) (by decide) (by decide)).1]
    decide
  · rw [(get_available_doctors_pagination 0 dbTwentyThree none none 2 10
      (by decide) (by decide) (by decide)).1]
    decide
  · rw [(get_available_doctors_pagination 0 dbTwentyThree none none 3 10
      (by decide) (by decide) (by decide)).1]
    decide

/-- C9: for every valid `limit ∈ [1,50]` and every page strictly beyond the
total page count, the listing still succeeds (HTTP 200) with an empty
doctors list and `hasNext = false` — no error is produced. -/
theorem get_available_doctors_page_beyond_total
    (now : Int) (db : DB) (specialty location : Option String)
    (page limit : Int)
    (hl1 : 1 ≤ limit) (hl2 : limit ≤ 50)
    (hpage : (((doctorPipeline now db specialty location).length ⌈/⌉
        limit.toNat : Nat) : Int) < page) :
    get_available_doctors now db specialty location page limit =
      .ok [] page
        ((doctorPipeline now db specialty location).length ⌈/⌉ limit.toNat)
        (doctorPipeline now db specialty location).length
        false := by
  have h0 : 0 < limit.toNat := by omega
  have hp : 1 ≤ page := by omega
  have htp : (doctorPipeline now db specialty location).length ≤
      limit.toNat * ((doctorPipeline now db specialty location).length ⌈/⌉
        limit.toNat) := by
    simpa [smul_eq_mul] using le_smul_ceilDiv (α := ℕ) (β := ℕ)
      (b := (doctorPipeline now db specialty location).length) h0
  have hskip : (doctorPipeline now db specialty location).length ≤
      (page - 1).toNat * limit.toNat := by
    have h1 : ((doctorPipeline now db specialty location).length ⌈/⌉
        limit.toNat) ≤ (page - 1).toNat := by omega
    calc (doctorPipeline now db specialty location).length
        ≤ limit.toNat *
            ((doctorPipeline now db specialty location).length ⌈/⌉
              limit.toNat) := htp
      _ ≤ limit.toNat * (page - 1).toNat := Nat.mul_le_mul_left _ h1
      _ = (page - 1).toNat * limit.toNat := Nat.mul_comm _ _
  rw [Nat.ceilDiv_eq_add_pred_div] at hpage
  unfold get_available_doctors
  rw [if_neg (by simp only [Bool.or_eq_true, decide_eq_true_eq, not_or]; omega)]
  simp only [Nat.ceilDiv_eq_add_pred_div, List.drop_eq_nil_of_le hskip,
    List.take_nil, decide_eq_false (lt_asymm hpage)]

/-- C9 witness: with 23 doctors, `limit = 10` (so 3 total pages) and
`page = 5`, the listing returns 200 with an empty list and
`hasNext = false`. -/
theorem get_available_doctors_page_beyond_total_witness :
    ((1 : Int) ≤ 10 ∧ (10 : Int) ≤ 50 ∧
      (((doctorPipeline 0 dbTwentyThree none none).length ⌈/⌉
        (10 : Int).toNat : Nat) : Int) < 5) ∧
    get_available_doctors 0 dbTwentyThree none none 5 10 =
      .ok [] 5 3 23 false := by
  refine ⟨⟨by decide, by decide, by decide⟩, ?_⟩
  rw [get_available_doctors_page_beyond_total 0 dbTwentyThree none none 5 10
    (by decide) (by decide) (by decide)]
  decide

/-- C8: a password passes `validate_password` exactly when its length is at
least 8 and it contains an uppercase letter, a lowercase letter, a digit and
a symbol from `@$!%*?&`; concretely `"Passw0rd!"` is accepted while
`"password"` and `"Short1!"` are rejected. -/
theorem validate_password_policy :
    (∀ p : String, validate_password p = true ↔
      (8 ≤ p.length ∧
       (∃ c ∈ p.data, 'A' ≤ c ∧ c ≤ 'Z') ∧
       (∃ c ∈ p.data, 'a' ≤ c ∧ c ≤ 'z') ∧
       (∃ c ∈ p.data, c.isDigit = true) ∧
       (∃ c ∈ p.data, isPasswordSymbol c = true))) ∧
    validate_password "Passw0rd!" = true ∧
    validate_password "password" = false ∧
    validate_password "Short1!" = false := by
  refine ⟨fun p => ?_, by decide, by decide, by decide⟩
  unfold validate_password
  split_ifs with h1 h2 h3 h4 h5 <;>
    simp_all [List.any_eq_true, not_lt]

/-- C10: a doctor registration that passes validation appends exactly one
user and one doctor profile; the profile's rating is the constant `5.0`
whatever `rating` value the request body carried, its fee and years of
experience are the request's parsed optional values (the hypotheses `hfee`
and `hyears` mirror `float(data.get('consultation_fee', 150.0))` and
`int(data.get('years_experience', 0))`, so an absent key yields the defaults
150.0 and 0), and its specialty is the request's optional field. -/
theorem register_doctor_rating_fixed
    (now : Int) (db : DB) (data : RegisterRequest) (fee : ℚ) (years : Int)
    (hemail : data.email ≠ "")
    (hpw : data.password ≠ "")
    (hfn : data.first_name ≠ "")
    (hln : data.last_name ≠ "")
    (hve : validate_email data.email = true)
    (hvp : validate_password data.password = true)
    (hdup : db.users.any (fun u => u.email == data.email) = false)
    (htype : data.user_type = "doctor")
    (hfee : (match data.consultation_fee with
             | none => some (150 : ℚ) | some o => o) = some fee)
    (hyears : (match data.years_experience with
               | none => some (0 : Int) | some o => o) = some years) :
    register now db data =
      (.created db.users.length data.email "doctor",
       { users := db.users ++
           [{ id := db.users.length, email := strToLower data.email
              password_hash := generate_password_hash data.password
              role := "doctor", first_name := data.first_name
              last_name := data.last_name, phone := data.phone
              is_verified := true, is_active := true
              created_at := now, updated_at := now }]
         doctor_profiles := db.doctor_profiles ++
           [{ user_id := db.users.length
              medical_license := data.medical_license.getD ""
              specialty := data.specialty.getD ""
              consultation_fee := fee, rating := 5
              years_experience := years }]
         patient_profiles := db.patient_profiles
         appointments := db.appointments }) := by
  unfold register
  rw [htype, if_neg hemail, if_neg hpw, if_neg (show ¬("doctor" = "") by decide),
    if_neg hfn, if_neg hln,
    if_neg (show ¬((!validate_email data.email) = true) by simp [hve]),
    if_neg (show ¬((!validate_password data.password) = true) by simp [hvp]),
    if_neg (show ¬(db.users.any (fun u => u.email == data.email) = true) by
      simp [hdup]),
    if_neg (show ¬((!("doctor" == "patient" || "doctor" == "doctor")) = true) by
      decide),
    if_pos (show ("doctor" == "doctor") = true by decide), hfee, hyears]

/-- A valid doctor registration whose body also carries `rating := 3`,
`consultation_fee` coercible to 200 and `years_experience` to 10. -/
def reqDrGreg : RegisterRequest :=
  { email := "greg@example.com", password := "Passw0rd!"
    user_type := "doctor", first_name := "Greg", last_name := "House"
    specialty := some "nephrology", consultation_fee := some (some 200)
    years_experience := some (some 10), rating := some 3 }

/-- C10 witness: registering `reqDrGreg` (which asks for rating 3) creates a
doctor profile with rating `5.0`, fee 200 and 10 years of experience. -/
theorem register_doctor_rating_fixed_witness :
    validate_email reqDrGreg.email = true ∧
    validate_password reqDrGreg.password = true ∧
    reqDrGreg.rating = some 3 ∧
    (register 0 DB.empty reqDrGreg).2.doctor_profiles =
      [{ user_id := 0, medical_license := "", specialty := "nephrology"
         consultation_fee := 200, rating := 5, years_experience := 10 }] := by
  refine ⟨by decide, by decide, rfl, ?_⟩
  rw [register_doctor_rating_fixed 0 DB.empty reqDrGreg 200 10
    (by decide) (by decide) (by decide) (by decide) (by decide) (by decide)
    rfl rfl rfl rfl]
  decide

end MediConnect
